import Mathlib

/-!
Verification of the Windows batched packet I/O engine of this repository
(`sys_conn_helper_windows.go` and the accompanying `sys_conn_oob`-style file):
the ancillary control-message codec, the batched receive pipeline of
`oobConn.ReadPacket`, and the send path `oobConn.WritePacket`.

Bytes are modelled as natural numbers; every read of a byte goes through
`% 256`, so any `Nat` list is interpreted as the byte slice it denotes.
Machine integers (`uint32` lengths, the `uint8` cursor `readPos`) are `Nat`
with explicit `% 2^w` where the source could overflow.
-/

namespace Quic

/-! ### Platform constants

Values of the Winsock constants referenced by the source
(`golang.org/x/sys/windows`, `syscall`, and the constants defined in the
source file itself). -/

def IPPROTO_IP : Nat := 0
def IPPROTO_IPV6 : Nat := 41
def IPPROTO_UDP : Nat := 17
def IP_TOS : Nat := 3
def IP_PKTINFO : Nat := 19
def IPV6_PKTINFO : Nat := 19
/-- `IPV6_RECVTCLASS = 0x28`, defined in the source file. -/
def IPV6_RECVTCLASS : Nat := 40
/-- `windows.UDP_SEND_MSG_SIZE = 2`. -/
def UDP_SEND_MSG_SIZE : Nat := 2
/-- `ecnMask = 0x3`, defined in the source file. -/
def ecnMask : Nat := 3
/-- `const batchSize = 1`, defined in the source file. -/
def batchSize : Nat := 1

/-! ### The control-message header layout

`type Cmsghdr struct { Len uint32; Level int32; Type int32 }`.
On Windows/amd64 the struct is 12 bytes, 4-byte aligned, fields stored
little-endian at offsets 0, 4, 8.  `Level`/`Type` are kept as their
unsigned 32-bit bit patterns; all constants compared against are small
non-negative numbers, so equality of bit patterns coincides with equality
of the `int32` values. -/

structure Cmsghdr where
  Len : Nat
  Level : Nat
  Typ : Nat
  deriving DecidableEq, Repr

/-- `cmsgAlign`: alignment of `Cmsghdr` (largest field is 4 bytes). -/
def cmsgAlign : Nat := 4

/-- `cmsgSize`: `unsafe.Sizeof(Cmsghdr{})` = 12. -/
def cmsgSize : Nat := 12

/-- `cmsgDataAlign(len) = (len + align-1) &^ (align-1)` with `align = 4`
(the alignment of `uint32`): round up to a multiple of 4. -/
def cmsgDataAlign (len : Nat) : Nat := (len + 4 - 1) / 4 * 4

/-- `cmsgHdrAlign`: same rounding, with the struct alignment (also 4). -/
def cmsgHdrAlign (len : Nat) : Nat := (len + cmsgAlign - 1) / 4 * 4

/-- `cmsgLen(length) = cmsgDataAlign(cmsgSize()) + length`. -/
def cmsgLen (length : Nat) : Nat := cmsgDataAlign cmsgSize + length

/-- `cmsgSpace(length) = cmsgDataAlign(cmsgSize() + cmsgHdrAlign(length))`. -/
def cmsgSpace (length : Nat) : Nat := cmsgDataAlign (cmsgSize + cmsgHdrAlign length)

/-! ### Byte-level helpers -/

/-- The four little-endian bytes of a `uint32` value. -/
def u32LEBytes (v : Nat) : List Nat :=
  [v % 256, v / 256 % 256, v / 65536 % 256, v / 16777216 % 256]

/-- The two little-endian bytes of a `uint16` value. -/
def u16LEBytes (v : Nat) : List Nat := [v % 256, v / 256 % 256]

/-- Overwrite `vs.length` bytes of `b` starting at offset `off`
(models in-place stores through an `unsafe.Pointer` into a slice). -/
def setBytes (b : List Nat) (off : Nat) (vs : List Nat) : List Nat :=
  b.take off ++ vs ++ b.drop (off + vs.length)

def writeU32LE (b : List Nat) (off v : Nat) : List Nat := setBytes b off (u32LEBytes v)

def writeU16LE (b : List Nat) (off v : Nat) : List Nat := setBytes b off (u16LEBytes v)

/-- Little-endian `uint32` read from a byte list (missing bytes read as 0;
the source only reads in bounds on the paths we verify). -/
def readU32LE (b : List Nat) (off : Nat) : Nat :=
  b.getD off 0 % 256 + 256 * (b.getD (off + 1) 0 % 256) +
    65536 * (b.getD (off + 2) 0 % 256) + 16777216 * (b.getD (off + 3) 0 % 256)

/-- Little-endian `uint16` read from a byte list. -/
def readU16LE (b : List Nat) (off : Nat) : Nat :=
  b.getD off 0 % 256 + 256 * (b.getD (off + 1) 0 % 256)

/-! ### The codec: building messages -/

/-- `appendUDPSegmentSizeMsg(b, size)`: append `cmsgSpace(2)` zero bytes,
store the header `{Len = cmsgLen(2), Level = IPPROTO_UDP,
Type = UDP_SEND_MSG_SIZE}` at the old end, and store `size` as a
little-endian `uint16` at offset `cmsgLen(0)` past the old end. -/
def appendUDPSegmentSizeMsg (b : List Nat) (size : Nat) : List Nat :=
  let startLen := b.length
  let b1 := b ++ List.replicate (cmsgSpace 2) 0
  let b2 := writeU32LE b1 (startLen + 4) IPPROTO_UDP
  let b3 := writeU32LE b2 (startLen + 8) UDP_SEND_MSG_SIZE
  let b4 := writeU32LE b3 startLen (cmsgLen 2)
  writeU16LE b4 (startLen + cmsgLen 0) size

/-! ### ECN values

`protocol.ECN` lives outside the given sources (internal/protocol).
Modelled from the spec: codepoints Not-ECT, ECT(0), ECT(1), CE plus the
zero value `Unsupported` (the Go zero value of the enum). -/

inductive ECN where
  | Unsupported
  | NonECT
  | ECT1
  | ECT0
  | CE
  deriving DecidableEq, Repr

/-- Modelled from the spec: `protocol.ParseECNHeaderBits` (not under `src/`)
maps the two ECN header bits `0b00/0b01/0b10/0b11` to
Not-ECT / ECT(1) / ECT(0) / CE. -/
def parseECNHeaderBits (b : Nat) : ECN :=
  if b = 0 then .NonECT
  else if b = 1 then .ECT1
  else if b = 2 then .ECT0
  else .CE

/-- Modelled from the spec: `protocol.ECN.ToHeaderBits` (not under `src/`),
the inverse of `parseECNHeaderBits` on real codepoints. -/
def ECN.toHeaderBits : ECN → Nat
  | .Unsupported => 0
  | .NonECT => 0
  | .ECT1 => 1
  | .ECT0 => 2
  | .CE => 3

/-- `appendIPv4ECNMsg(b, val)`: append `cmsgLen(4)` zero bytes, store the
header `{Len = cmsgLen(4), Level = IPPROTO_IP, Type = IP_TOS}` and the ECN
bits at offset `cmsgSpace(0)` past the old end. -/
def appendIPv4ECNMsg (b : List Nat) (val : ECN) : List Nat :=
  let startLen := b.length
  let b1 := b ++ List.replicate (cmsgLen 4) 0
  let b2 := writeU32LE b1 (startLen + 4) IPPROTO_IP
  let b3 := writeU32LE b2 (startLen + 8) IP_TOS
  let b4 := writeU32LE b3 startLen (cmsgLen 4)
  setBytes b4 (startLen + cmsgSpace 0) [val.toHeaderBits]

/-- `appendIPv6ECNMsg(b, val)`: same with `{Level = IPPROTO_IPV6,
Type = IPV6_RECVTCLASS}`. -/
def appendIPv6ECNMsg (b : List Nat) (val : ECN) : List Nat :=
  let startLen := b.length
  let b1 := b ++ List.replicate (cmsgLen 4) 0
  let b2 := writeU32LE b1 (startLen + 4) IPPROTO_IPV6
  let b3 := writeU32LE b2 (startLen + 8) IPV6_RECVTCLASS
  let b4 := writeU32LE b3 startLen (cmsgLen 4)
  setBytes b4 (startLen + cmsgSpace 0) [val.toHeaderBits]

/-! ### The codec: parsing -/

/-- The parse error (`syscall.EINVAL`, the spec's `InvalidControlMessage`). -/
inductive CmsgErr where
  | einval
  deriving DecidableEq, Repr

/-- `socketControlMessageHeaderAndData(b)`: reinterpret the first 12 bytes
of `b` as a `Cmsghdr`; fail with `EINVAL` unless
`cmsgSize ≤ h.Len ≤ len(b)`; the data is `b[cmsgDataAlign(cmsgSize()):h.Len]`. -/
def socketControlMessageHeaderAndData (b : List Nat) :
    Except CmsgErr (Cmsghdr × List Nat) :=
  let h : Cmsghdr := ⟨readU32LE b 0, readU32LE b 4, readU32LE b 8⟩
  if h.Len < cmsgSize ∨ h.Len > b.length then .error .einval
  else .ok (h, (b.take h.Len).drop (cmsgDataAlign cmsgSize))

/-- `ParseOneSocketControlMessage(b)`: one record's header, data, and the
remainder of `b` after the record (empty when the aligned end of the record
reaches the end of `b`). -/
def ParseOneSocketControlMessage (b : List Nat) :
    Except CmsgErr (Cmsghdr × List Nat × List Nat) :=
  match socketControlMessageHeaderAndData b with
  | .error e => .error e
  | .ok (h, dbuf) =>
      let i := cmsgDataAlign h.Len
      let remainder := if i < b.length then b.drop i else []
      .ok (h, dbuf, remainder)

/-! ### The codec over raw memory

The source reads the header through an `unsafe.Pointer` cast of `&b[0]`,
so the loads are not bounds-checked against `len(b)`: they read from the
underlying memory.  To state the no-out-of-bounds property we re-express
the same function over a memory `mem : Nat → Nat` (the bytes at and after
`&b[0]`) together with the slice length `n = len(b)`; slices of `b` are
materialized as lists.  Out-of-bounds safety then reads: the result is
determined by `mem` restricted to `[0, n)`. -/

/-- Little-endian `uint32` load from raw memory (what the
`(*Cmsghdr)(unsafe.Pointer(&b[0]))` field reads perform). -/
def readU32LEMem (mem : Nat → Nat) (off : Nat) : Nat :=
  mem off % 256 + 256 * (mem (off + 1) % 256) +
    65536 * (mem (off + 2) % 256) + 16777216 * (mem (off + 3) % 256)

def socketControlMessageHeaderAndDataMem (mem : Nat → Nat) (n : Nat) :
    Except CmsgErr (Cmsghdr × List Nat) :=
  let h : Cmsghdr := ⟨readU32LEMem mem 0, readU32LEMem mem 4, readU32LEMem mem 8⟩
  if h.Len < cmsgSize ∨ h.Len > n then .error .einval
  else .ok (h, (List.range' (cmsgDataAlign cmsgSize) (h.Len - cmsgDataAlign cmsgSize)).map
      (fun j => mem j % 256))

def ParseOneSocketControlMessageMem (mem : Nat → Nat) (n : Nat) :
    Except CmsgErr (Cmsghdr × List Nat × List Nat) :=
  match socketControlMessageHeaderAndDataMem mem n with
  | .error e => .error e
  | .ok (h, dbuf) =>
      let i := cmsgDataAlign h.Len
      let remainder := if i < n then (List.range' i (n - i)).map (fun j => mem j % 256) else []
      .ok (h, dbuf, remainder)

/-! ### Packet-info parsing -/

/-- Model of `netip.Addr`: the zero value is the invalid address. -/
inductive NetipAddr where
  | invalid
  | v4 (b0 b1 b2 b3 : Nat)
  | v6 (bytes : List Nat)
  deriving DecidableEq, Repr

/-- `netip.AddrFrom4` on the first four bytes of a list. -/
def netipAddrFrom4 (b : List Nat) : NetipAddr :=
  .v4 (b.getD 0 0 % 256) (b.getD 1 0 % 256) (b.getD 2 0 % 256) (b.getD 3 0 % 256)

/-- `netip.AddrFrom16(..).Unmap()`: an IPv4-mapped address
(`::ffff:a.b.c.d`) unmaps to the IPv4 address, anything else stays IPv6. -/
def netipAddrFrom16Unmap (b : List Nat) : NetipAddr :=
  if (b.take 10).all (fun x => x % 256 = 0) ∧ b.getD 10 0 % 256 = 255 ∧ b.getD 11 0 % 256 = 255 then
    .v4 (b.getD 12 0 % 256) (b.getD 13 0 % 256) (b.getD 14 0 % 256) (b.getD 15 0 % 256)
  else .v6 (b.map (fun x => x % 256))

/-- `parseIPv4PktInfo(body)`: requires exactly 8 bytes (the size of
`struct in_pktinfo`).  NOTE, faithful to the source: the interface index is
decoded as `binary.LittleEndian.Uint32(body)`, i.e. from bytes 0..3 (the
address bytes), not from bytes 4..7. -/
def parseIPv4PktInfo (body : List Nat) : Option (NetipAddr × Nat) :=
  if body.length ≠ 8 then none
  else some (netipAddrFrom4 body, readU32LE body 0)

/-! ### The receive pipeline -/

/-- The `packetInfo` struct; its Go zero value (invalid address, index 0)
is "unset". -/
structure PacketInfo where
  addr : NetipAddr := .invalid
  ifIndex : Nat := 0
  deriving DecidableEq, Repr

/-- The fields of `receivedPacket` written by the control-message loop. -/
structure PacketFields where
  ecn : ECN := .Unsupported
  info : PacketInfo := {}
  deriving DecidableEq, Repr

/-- `sync.Once`, instrumented with a count of how many times `Do` actually
ran its function (the number of diagnostic log lines emitted). -/
structure SyncOnce where
  done : Bool := false
  fired : Nat := 0
  deriving DecidableEq, Repr

/-- `Once.Do(f)`: run `f` only if it has not run yet. -/
def SyncOnce.run (o : SyncOnce) : SyncOnce :=
  if o.done then o else { done := true, fired := o.fired + 1 }

/-- One iteration body of the control-message loop of `ReadPacket`
(the two `if hdr.Level` blocks, sequential as in the source).
The source indexes `body[0]` in the TOS cases; it is modelled as a
defaulted read (the distinction only matters for an empty TOS body, where
the source would panic — no claim concerns that input). -/
def applyCmsg (hdr : Cmsghdr) (body : List Nat) (p : PacketFields)
    (o4 o6 : SyncOnce) : PacketFields × SyncOnce × SyncOnce :=
  let s1 : PacketFields × SyncOnce × SyncOnce :=
    if hdr.Level = IPPROTO_IP then
      if hdr.Typ = IP_TOS then
        ({ p with ecn := parseECNHeaderBits (body.getD 0 0 % 256 &&& ecnMask) }, o4, o6)
      else if hdr.Typ = IP_PKTINFO then
        match parseIPv4PktInfo body with
        | some (ip, ifIndex) =>
            ({ p with info := { addr := ip, ifIndex := ifIndex } }, o4, o6)
        | none => (p, o4.run, o6)
      else (p, o4, o6)
    else (p, o4, o6)
  match s1 with
  | (p1, o4', o6') =>
    if hdr.Level = IPPROTO_IPV6 then
      if hdr.Typ = IPV6_RECVTCLASS then
        ({ p1 with ecn := parseECNHeaderBits (body.getD 0 0 % 256 &&& ecnMask) }, o4', o6')
      else if hdr.Typ = IPV6_PKTINFO then
        if body.length = 20 then
          ({ p1 with info := { addr := netipAddrFrom16Unmap (body.take 16),
                               ifIndex := readU32LE body 16 } }, o4', o6')
        else (p1, o4', o6'.run)
      else (p1, o4', o6')
    else (p1, o4', o6')

/-- The control-message loop of `ReadPacket`
(`for len(data) > 0 { hdr, body, remainder, err := ParseOne...; ...; data = remainder }`).
The `sync.Once` state is returned even on error, since `Once.Do` mutations
performed before a later parse failure persist. -/
def parseCmsgLoop (data : List Nat) (p : PacketFields) (o4 o6 : SyncOnce) :
    Except CmsgErr PacketFields × SyncOnce × SyncOnce :=
  if hlen : data.length = 0 then (.ok p, o4, o6)
  else
    match hp : ParseOneSocketControlMessage data with
    | .error e => (.error e, o4, o6)
    | .ok (hdr, body, remainder) =>
        match applyCmsg hdr body p o4 o6 with
        | (p', o4', o6') => parseCmsgLoop remainder p' o4' o6'
termination_by data.length
decreasing_by
  simp only [ParseOneSocketControlMessage, socketControlMessageHeaderAndData] at hp
  split at hp
  · exact absurd hp (by simp)
  · rename_i hguard
    split at hguard
    · exact absurd hguard (by simp)
    · rename_i hcond
      simp only [Except.ok.injEq, Prod.mk.injEq] at hguard hp
      obtain ⟨hh, -⟩ := hguard
      obtain ⟨-, -, hrem⟩ := hp
      subst hrem
      subst hh
      simp only [cmsgDataAlign, cmsgSize, not_or, not_lt] at hcond ⊢
      obtain ⟨h1, h2⟩ := hcond
      split
      · simp only [List.length_drop]; omega
      · simpa using Nat.pos_of_ne_zero hlen

/-- One receive slot as seen by `ReadPacket`: the remote address
(abstracted to an identifier; `0` stands for the nil address of a fresh
slot) and the ancillary bytes `msg.OOB[:msg.NN]`. -/
structure Msg where
  addr : Nat := 0
  oob : List Nat := []
  deriving DecidableEq, Repr

/-- The outcome of one underlying `ReadBatch` call: the count `n`, the
error (`none` = nil), and the slot contents the kernel wrote into
`messages[0..n)`. -/
structure BatchResult where
  n : Nat
  err : Option Nat
  msgs : Nat → Msg

/-- The mutable state of `oobConn` relevant to `ReadPacket`:
the `uint8` cursor `readPos`, `len(c.messages)`, the slot contents, and
the two process-global `sync.Once` gates (threaded through the state). -/
structure OobConn where
  readPos : Nat
  messagesLen : Nat
  msgs : Nat → Msg
  once4 : SyncOnce
  once6 : SyncOnce

/-- Errors returned by `ReadPacket`: the (possibly nil) error propagated
from a failed `ReadBatch`, or `syscall.EINVAL` from the cmsg parser. -/
inductive ReadErr where
  | batchErr (err : Option Nat)
  | invalidCmsg
  deriving DecidableEq, Repr

/-- The fields of the returned `receivedPacket` that this model tracks. -/
structure ReceivedPacket where
  remoteAddr : Nat
  ecn : ECN
  info : PacketInfo
  deriving DecidableEq, Repr

/-- Result of one `ReadPacket` call: the returned value, the state after
the call, and whether the call issued an underlying `ReadBatch` call. -/
structure StepOut where
  res : Except ReadErr ReceivedPacket
  st : OobConn
  issued : Bool

/-- Lines 134-189 of `ReadPacket`: take the slot at `readPos`, advance the
cursor (`uint8` increment), parse the slot's ancillary chain, and build
the packet. -/
def consume (c : OobConn) (issued : Bool) : StepOut :=
  let msg := c.msgs c.readPos
  let c1 := { c with readPos := (c.readPos + 1) % 256 }
  match parseCmsgLoop msg.oob {} c1.once4 c1.once6 with
  | (pr, o4, o6) =>
    let c2 := { c1 with once4 := o4, once6 := o6 }
    match pr with
    | .error _ => { res := .error .invalidCmsg, st := c2, issued := issued }
    | .ok f => { res := .ok { remoteAddr := msg.addr, ecn := f.ecn, info := f.info },
                 st := c2, issued := issued }

/-- After `ReadBatch` returned `r`, slots `0..r.n` hold the kernel-written
contents and the rest keep their previous (stale) contents. -/
def overlayMsgs (r : BatchResult) (old : Nat → Msg) : Nat → Msg :=
  fun i => if i < r.n then r.msgs i else old i

/-- One `ReadPacket()` call.  The underlying `ReadBatch` outcome is
supplied as the oracle `r` (consumed only when the refill branch runs).
Faithful to the source: the refill branch first re-slices `messages` to
`batchSize` and sets `readPos = 0`, and only then checks
`n == 0 || err != nil`, returning early on failure. -/
def ReadPacketStep (c : OobConn) (r : BatchResult) : StepOut :=
  if c.messagesLen = c.readPos then
    let c1 := { c with messagesLen := batchSize, readPos := 0 }
    if r.n = 0 ∨ r.err ≠ none then
      { res := .error (.batchErr r.err),
        st := { c1 with msgs := overlayMsgs r c1.msgs }, issued := true }
    else
      consume { c1 with messagesLen := r.n, msgs := overlayMsgs r c1.msgs } true
  else
    consume c false

/-- The `oobConn` state built by `newConn`: `readPos = batchSize`,
`len(messages) = batchSize`, every slot fresh (`Addr` nil, `NN = 0`),
no diagnostic logged yet. -/
def freshOobConn : OobConn :=
  { readPos := batchSize, messagesLen := batchSize, msgs := fun _ => {},
    once4 := {}, once6 := {} }

/-- Iterate `ReadPacket` over a list of `ReadBatch` oracles. -/
def runReads (c : OobConn) (rs : List BatchResult) : OobConn :=
  match rs with
  | [] => c
  | r :: rest => runReads (ReadPacketStep c r).st rest

/-! ### The send path -/

/-- `connCapabilities`. -/
structure connCapabilities where
  DF : Bool
  GSO : Bool
  ECN : Bool
  deriving DecidableEq, Repr

/-- A `*net.UDPAddr`: whether `IP.To4() != nil`, plus an abstract identity. -/
structure UDPAddr where
  isV4 : Bool
  id : Nat
  deriving DecidableEq, Repr

/-- A `net.Addr` argument: either a `*net.UDPAddr` or some other
implementation of the interface. -/
inductive NetAddr where
  | udp (a : UDPAddr)
  | other (id : Nat)
  deriving DecidableEq, Repr

/-- Outcome of `WritePacket`: a runtime panic, or the single
`WriteMsgUDP` send syscall with the payload, assembled ancillary buffer
and destination it carried. -/
inductive WriteResult where
  | panicked (msg : String)
  | sent (dest : UDPAddr) (payload oob : List Nat)
  deriving DecidableEq, Repr

def WriteResult.isPanic : WriteResult → Bool
  | .panicked _ => true
  | .sent _ _ _ => false

/-- `oobConn.WritePacket(b, addr, packetInfoOOB, gsoSize, ecn)`.
The final `addr.(*net.UDPAddr)` is the unchecked type assertion of the
source; on a non-UDP address it panics before the send. -/
def WritePacket (cap : connCapabilities) (b : List Nat) (addr : NetAddr)
    (packetInfoOOB : List Nat) (gsoSize : Nat) (ecn : ECN) : WriteResult :=
  let oob := packetInfoOOB
  if gsoSize > 0 ∧ cap.GSO = false then .panicked "GSO disabled"
  else
    let oob1 := if gsoSize > 0 then appendUDPSegmentSizeMsg oob gsoSize else oob
    if ecn ≠ .Unsupported ∧ cap.ECN = false then
      .panicked "tried to send an ECN-marked packet although ECN is disabled"
    else
      let oob2 := if ecn ≠ .Unsupported then
          match addr with
          | .udp a => if a.isV4 then appendIPv4ECNMsg oob1 ecn else appendIPv6ECNMsg oob1 ecn
          | .other _ => oob1
        else oob1
      match addr with
      | .udp a => .sent a b oob2
      | .other _ => .panicked "interface conversion: net.Addr is not *net.UDPAddr"

end Quic

namespace Quic

/-! ## Basic lemmas about the codec and the pipeline step -/

lemma append_seg_bytes (size : Nat) :
    appendUDPSegmentSizeMsg [] size =
      [14, 0, 0, 0, 17, 0, 0, 0, 2, 0, 0, 0, size % 256, size / 256 % 256, 0, 0] := by
  simp [appendUDPSegmentSizeMsg, writeU32LE, writeU16LE, setBytes, u32LEBytes, u16LEBytes,
    cmsgSpace, cmsgLen, cmsgSize, cmsgDataAlign, cmsgHdrAlign, cmsgAlign,
    IPPROTO_UDP, UDP_SEND_MSG_SIZE, List.replicate]

lemma parse_seg_bytes (size : Nat) :
    ParseOneSocketControlMessage
        [14, 0, 0, 0, 17, 0, 0, 0, 2, 0, 0, 0, size % 256, size / 256 % 256, 0, 0] =
      .ok (⟨14, 17, 2⟩, [size % 256, size / 256 % 256], []) := by
  simp [ParseOneSocketControlMessage, socketControlMessageHeaderAndData, readU32LE,
    cmsgSize, cmsgDataAlign]

lemma parseCmsgLoop_nil (p : PacketFields) (o4 o6 : SyncOnce) :
    parseCmsgLoop [] p o4 o6 = (.ok p, o4, o6) := by
  rw [parseCmsgLoop]
  simp

lemma parseCmsgLoop_error {data : List Nat} {e : CmsgErr}
    (h : ParseOneSocketControlMessage data = .error e) (hne : data.length ≠ 0)
    (p : PacketFields) (o4 o6 : SyncOnce) :
    parseCmsgLoop data p o4 o6 = (.error e, o4, o6) := by
  rw [parseCmsgLoop, dif_neg hne]
  split
  · rename_i e' heq
    cases heq.symm.trans h
    rfl
  · rename_i hdr' body' rem' heq
    exact absurd (heq.symm.trans h) (by simp)

lemma parseCmsgLoop_ok {data : List Nat} {hdr : Cmsghdr} {body rem : List Nat}
    (h : ParseOneSocketControlMessage data = .ok (hdr, body, rem)) (hne : data.length ≠ 0)
    (p : PacketFields) (o4 o6 : SyncOnce) :
    parseCmsgLoop data p o4 o6 =
      parseCmsgLoop rem (applyCmsg hdr body p o4 o6).1
        (applyCmsg hdr body p o4 o6).2.1 (applyCmsg hdr body p o4 o6).2.2 := by
  rw [parseCmsgLoop, dif_neg hne]
  split
  · rename_i e' heq
    exact absurd (heq.symm.trans h) (by simp)
  · rename_i hdr' body' rem' heq
    cases heq.symm.trans h
    rfl

lemma parseOne_ok_length {b : List Nat} {x : Cmsghdr × List Nat × List Nat}
    (h : ParseOneSocketControlMessage b = .ok x) : cmsgSize ≤ b.length := by
  simp only [ParseOneSocketControlMessage, socketControlMessageHeaderAndData] at h
  split at h
  · exact absurd h (by simp)
  · rename_i hd dbuf heq
    split at heq
    · exact absurd heq (by simp)
    · rename_i hcond
      simp only [not_or, not_lt, cmsgSize] at hcond ⊢
      omega

lemma consume_ok {c : OobConn} {f : PacketFields} {o4 o6 : SyncOnce} {b : Bool}
    (h : parseCmsgLoop (c.msgs c.readPos).oob {} c.once4 c.once6 = (.ok f, o4, o6)) :
    consume c b =
      ⟨.ok ⟨(c.msgs c.readPos).addr, f.ecn, f.info⟩,
       { c with readPos := (c.readPos + 1) % 256, once4 := o4, once6 := o6 }, b⟩ := by
  simp [consume, h]

lemma consume_err {c : OobConn} {e : CmsgErr} {o4 o6 : SyncOnce} {b : Bool}
    (h : parseCmsgLoop (c.msgs c.readPos).oob {} c.once4 c.once6 = (.error e, o4, o6)) :
    consume c b =
      ⟨.error .invalidCmsg,
       { c with readPos := (c.readPos + 1) % 256, once4 := o4, once6 := o6 }, b⟩ := by
  simp [consume, h]

lemma consume_issued (c : OobConn) (b : Bool) : (consume c b).issued = b := by
  rcases hp : parseCmsgLoop (c.msgs c.readPos).oob {} c.once4 c.once6 with ⟨pr, o4, o6⟩
  rcases pr with e | f
  · rw [consume_err hp]
  · rw [consume_ok hp]

lemma consume_st (c : OobConn) (b : Bool) :
    (consume c b).st.readPos = (c.readPos + 1) % 256 ∧
    (consume c b).st.messagesLen = c.messagesLen ∧
    (consume c b).st.msgs = c.msgs := by
  rcases hp : parseCmsgLoop (c.msgs c.readPos).oob {} c.once4 c.once6 with ⟨pr, o4, o6⟩
  rcases pr with e | f
  · rw [consume_err hp]
    exact ⟨rfl, rfl, rfl⟩
  · rw [consume_ok hp]
    exact ⟨rfl, rfl, rfl⟩

lemma readPacketStep_noRefill {c : OobConn} (h : ¬c.messagesLen = c.readPos)
    (r : BatchResult) : ReadPacketStep c r = consume c false := by
  simp [ReadPacketStep, h]

lemma readPacketStep_refill_fail {c : OobConn} {r : BatchResult}
    (h : c.messagesLen = c.readPos) (hf : r.n = 0 ∨ r.err ≠ none) :
    ReadPacketStep c r =
      ⟨.error (.batchErr r.err),
       { c with messagesLen := batchSize, readPos := 0, msgs := overlayMsgs r c.msgs },
       true⟩ := by
  simp [ReadPacketStep, h, hf]

lemma readPacketStep_refill_ok {c : OobConn} {r : BatchResult}
    (h : c.messagesLen = c.readPos) (hf : ¬(r.n = 0 ∨ r.err ≠ none)) :
    ReadPacketStep c r =
      consume { c with messagesLen := r.n, readPos := 0, msgs := overlayMsgs r c.msgs }
        true := by
  simp [ReadPacketStep, h, hf]

end Quic

namespace Quic

/-! ## The claims -/

/-- C2: for every 16-bit unsigned segmentation size, parsing one control
message from the buffer obtained by appending the segmentation-size record
to the empty buffer yields the `(IPPROTO_UDP, UDP_SEND_MSG_SIZE)` header
with `Len = cmsgLen 2`, a two-byte payload that decodes back to exactly
that size, and an empty remainder. -/
theorem segmentSizeMsg_roundtrip (size : Nat) (hsize : size < 65536) :
    ParseOneSocketControlMessage (appendUDPSegmentSizeMsg [] size) =
      .ok (⟨cmsgLen 2, IPPROTO_UDP, UDP_SEND_MSG_SIZE⟩, u16LEBytes size, []) ∧
    readU16LE (u16LEBytes size) 0 = size := by
  constructor
  · rw [append_seg_bytes, parse_seg_bytes]
    norm_num [cmsgLen, cmsgDataAlign, cmsgSize, IPPROTO_UDP, UDP_SEND_MSG_SIZE, u16LEBytes]
  · simp only [readU16LE, u16LEBytes, List.getD_cons_zero, List.getD_cons_succ]
    omega

/-- Witness for C2 at the concrete size 1200. -/
theorem segmentSizeMsg_roundtrip_witness :
    ParseOneSocketControlMessage (appendUDPSegmentSizeMsg [] 1200) =
      .ok (⟨cmsgLen 2, IPPROTO_UDP, UDP_SEND_MSG_SIZE⟩, u16LEBytes 1200, []) ∧
    readU16LE (u16LEBytes 1200) 0 = 1200 :=
  segmentSizeMsg_roundtrip 1200 (by norm_num)

/-- C4 (code bug): on the well-formed 8-byte IPv4 `in_pktinfo` payload
`[1,2,3,4, 5,0,0,0]` (address `1.2.3.4`, interface index 5 in bytes 4..7),
`parseIPv4PktInfo` returns the interface index decoded from bytes 0..3
(the address bytes), 67305985 = 0x04030201, and not the value 5 that the
documented `in_pktinfo` layout stores in bytes 4..7. -/
theorem parseIPv4PktInfo_ifIndex_from_addr_bytes :
    parseIPv4PktInfo [1, 2, 3, 4, 5, 0, 0, 0] =
      some (.v4 1 2 3 4, 67305985) ∧
    readU32LE [1, 2, 3, 4, 5, 0, 0, 0] 4 = 5 ∧ (67305985 : Nat) ≠ 5 := by
  refine ⟨?_, by norm_num [readU32LE], by norm_num⟩
  norm_num [parseIPv4PktInfo, netipAddrFrom4, readU32LE]

/-- C5: `WritePacket` with `gsoSize > 0` while the capabilities report no
GSO support panics, and `WritePacket` with `ecn ≠ Unsupported` while the
capabilities report no ECN support panics; in both cases no send syscall
is issued (the result is a panic, not a `sent`). -/
theorem writePacket_capability_gating (cap : connCapabilities) (b : List Nat)
    (addr : NetAddr) (pio : List Nat) (gsoSize : Nat) (ecn : ECN) :
    (0 < gsoSize → cap.GSO = false →
      (WritePacket cap b addr pio gsoSize ecn).isPanic = true) ∧
    (ecn ≠ .Unsupported → cap.ECN = false →
      (WritePacket cap b addr pio gsoSize ecn).isPanic = true) := by
  constructor
  · intro hg hcap
    simp [WritePacket, hg, hcap, WriteResult.isPanic]
  · intro he hcap
    by_cases hG : 0 < gsoSize ∧ cap.GSO = false
    · simp [WritePacket, hG, WriteResult.isPanic]
    · simp only [WritePacket, gt_iff_lt, hG, if_false]
      simp [he, hcap, WriteResult.isPanic]

/-- Witness for C5: both preconditions violated on a concrete call. -/
theorem writePacket_capability_gating_witness :
    (WritePacket ⟨true, false, false⟩ [] (.udp ⟨true, 0⟩) [] 1 .CE).isPanic = true ∧
    (WritePacket ⟨true, false, false⟩ [] (.udp ⟨true, 0⟩) [] 1 .CE).isPanic = true :=
  ⟨(writePacket_capability_gating ⟨true, false, false⟩ [] (.udp ⟨true, 0⟩) [] 1 .CE).1
      (by norm_num) rfl,
   (writePacket_capability_gating ⟨true, false, false⟩ [] (.udp ⟨true, 0⟩) [] 1 .CE).2
      (by decide) rfl⟩

/-- C10: a `WritePacket` call whose destination is not a `*net.UDPAddr`
always panics (never reaches the send); when neither capability
precondition also fires, the panic is specifically the unchecked type
assertion `addr.(*net.UDPAddr)`; and every `sent` outcome's destination is
the UDP address the caller passed. -/
theorem writePacket_nonudp_addr_panics (cap : connCapabilities) (b pio : List Nat)
    (gsoSize : Nat) (ecn : ECN) :
    (∀ idn : Nat, (WritePacket cap b (.other idn) pio gsoSize ecn).isPanic = true) ∧
    (∀ idn : Nat, (0 < gsoSize → cap.GSO = true) → (ecn ≠ .Unsupported → cap.ECN = true) →
      WritePacket cap b (.other idn) pio gsoSize ecn =
        .panicked "interface conversion: net.Addr is not *net.UDPAddr") ∧
    (∀ addr dest payload oob, WritePacket cap b addr pio gsoSize ecn = .sent dest payload oob →
      addr = NetAddr.udp dest) := by
  refine ⟨fun idn => ?_, fun idn hg he => ?_, fun addr dest payload oob hsent => ?_⟩
  · simp only [WritePacket]
    split_ifs <;> rfl
  · simp only [WritePacket]
    split_ifs with h1 h2
    · rw [hg h1.1] at h1
      exact absurd h1.2 (by simp)
    · rw [he h2.1] at h2
      exact absurd h2.2 (by simp)
    · rfl
  · cases addr with
    | udp a =>
        simp only [WritePacket] at hsent
        split_ifs at hsent <;>
          first
            | exact WriteResult.noConfusion hsent
            | (simp only [WriteResult.sent.injEq] at hsent; rw [hsent.1])
    | other idn =>
        simp only [WritePacket] at hsent
        split_ifs at hsent

/-- Witness for C10: the type-assertion panic at a concrete call. -/
theorem writePacket_nonudp_addr_panics_witness :
    WritePacket ⟨true, true, true⟩ [] (.other 7) [] 0 .Unsupported =
      .panicked "interface conversion: net.Addr is not *net.UDPAddr" :=
  (writePacket_nonudp_addr_panics ⟨true, true, true⟩ [] [] 0 .Unsupported).2.1 7
    (fun h => by cases h) (fun h => rfl)

end Quic

namespace Quic

lemma readPacketStep_issued_false {c : OobConn} (h : ¬c.messagesLen = c.readPos)
    (r : BatchResult) : (ReadPacketStep c r).issued = false := by
  rw [readPacketStep_noRefill h]
  exact consume_issued c false

lemma readPacketStep_consume_res {c : OobConn} {f : PacketFields} {o4 o6 : SyncOnce}
    (h : ¬c.messagesLen = c.readPos)
    (hp : parseCmsgLoop (c.msgs c.readPos).oob {} c.once4 c.once6 = (.ok f, o4, o6))
    (r : BatchResult) :
    (ReadPacketStep c r).res = .ok ⟨(c.msgs c.readPos).addr, f.ecn, f.info⟩ := by
  rw [readPacketStep_noRefill h, consume_ok hp]

lemma readPacketStep_issued_iff (c : OobConn) (r : BatchResult) :
    (ReadPacketStep c r).issued = true ↔ c.messagesLen = c.readPos := by
  by_cases h : c.messagesLen = c.readPos
  · by_cases hf : r.n = 0 ∨ r.err ≠ none
    · rw [readPacketStep_refill_fail h hf]
      simp [h]
    · rw [readPacketStep_refill_ok h hf]
      simp [consume_issued, h]
  · rw [readPacketStep_noRefill h]
    simp [consume_issued, h]

lemma readPacketStep_inv {c : OobConn} {r : BatchResult}
    (h1 : c.readPos ≤ c.messagesLen) (h2 : c.messagesLen ≤ batchSize)
    (hn : r.n ≤ batchSize) :
    (ReadPacketStep c r).st.readPos ≤ (ReadPacketStep c r).st.messagesLen ∧
    (ReadPacketStep c r).st.messagesLen ≤ batchSize := by
  by_cases h : c.messagesLen = c.readPos
  · by_cases hf : r.n = 0 ∨ r.err ≠ none
    · rw [readPacketStep_refill_fail h hf]
      exact ⟨Nat.zero_le _, Nat.le_refl _⟩
    · rw [readPacketStep_refill_ok h hf]
      rcases consume_st
          { c with messagesLen := r.n, readPos := 0, msgs := overlayMsgs r c.msgs } true with
        ⟨e1, e2, -⟩
      rw [e1, e2]
      push_neg at hf
      have h1n : 1 ≤ r.n := Nat.one_le_iff_ne_zero.mpr hf.1
      exact ⟨by simpa using h1n, hn⟩
  · rw [readPacketStep_noRefill h]
    rcases consume_st c false with ⟨e1, e2, -⟩
    rw [e1, e2]
    have hlt : c.readPos < c.messagesLen := lt_of_le_of_ne h1 (fun hq => h hq.symm)
    simp only [batchSize] at h2
    exact ⟨by omega, h2⟩

lemma runReads_inv (rs : List BatchResult) :
    ∀ c : OobConn, c.readPos ≤ c.messagesLen → c.messagesLen ≤ batchSize →
      (∀ r ∈ rs, r.n ≤ batchSize) →
      (runReads c rs).readPos ≤ (runReads c rs).messagesLen ∧
      (runReads c rs).messagesLen ≤ batchSize := by
  induction rs with
  | nil => exact fun c h1 h2 _ => ⟨h1, h2⟩
  | cons r rest ih =>
      intro c h1 h2 hn
      have hr := readPacketStep_inv h1 h2 (hn r (by simp))
      exact ih _ hr.1 hr.2 (fun r' hr' => hn r' (by simp [hr']))

/-- C1 (code bug): from the freshly constructed connection (state
`Exhausted`: `readPos = len(messages) = batchSize`), a `ReadPacket` call
whose underlying `ReadBatch` fails (`n = 0` with an error) returns that
error — but the pipeline does NOT remain exhausted: it is left with
`readPos = 0` and `len(messages) = batchSize`, so the immediately
following `ReadPacket` call issues no new receive and instead returns a
packet fabricated from stale slot 0 of the failed batch. -/
theorem readPacket_failedRefill_leaves_stale_batch :
    (ReadPacketStep freshOobConn ⟨0, some 5, fun _ => {}⟩).res =
      .error (.batchErr (some 5)) ∧
    (ReadPacketStep freshOobConn ⟨0, some 5, fun _ => {}⟩).issued = true ∧
    (ReadPacketStep freshOobConn ⟨0, some 5, fun _ => {}⟩).st.readPos = 0 ∧
    (ReadPacketStep freshOobConn ⟨0, some 5, fun _ => {}⟩).st.messagesLen = batchSize ∧
    (ReadPacketStep (ReadPacketStep freshOobConn ⟨0, some 5, fun _ => {}⟩).st
        ⟨0, some 5, fun _ => {}⟩).issued = false ∧
    (ReadPacketStep (ReadPacketStep freshOobConn ⟨0, some 5, fun _ => {}⟩).st
        ⟨0, some 5, fun _ => {}⟩).res =
      .ok { remoteAddr := 0, ecn := .Unsupported, info := {} } :=
  ⟨rfl, rfl, rfl, rfl,
   readPacketStep_issued_false (by decide) _,
   @readPacketStep_consume_res _ {} {} {} (by decide) (parseCmsgLoop_nil {} {} {}) _⟩

/-- C6: the batch-cursor invariant `readPos ≤ len(messages)` holds for the
freshly constructed connection and after any sequence of `ReadPacket`
calls (each underlying receive delivering at most `batchSize` messages),
and a call issues an underlying receive if and only if
`readPos = len(messages)` at entry. -/
theorem readPacket_cursor_invariant :
    (freshOobConn.readPos ≤ freshOobConn.messagesLen ∧
      freshOobConn.messagesLen ≤ batchSize) ∧
    (∀ rs : List BatchResult, (∀ r ∈ rs, r.n ≤ batchSize) →
      (runReads freshOobConn rs).readPos ≤ (runReads freshOobConn rs).messagesLen) ∧
    (∀ (c : OobConn) (r : BatchResult),
      (ReadPacketStep c r).issued = true ↔ c.messagesLen = c.readPos) := by
  refine ⟨⟨Nat.le_refl _, Nat.le_refl _⟩, fun rs hn => ?_, readPacketStep_issued_iff⟩
  exact (runReads_inv rs freshOobConn (Nat.le_refl _) (Nat.le_refl _) hn).1

/-- Witness for C6 on a concrete one-call sequence. -/
theorem readPacket_cursor_invariant_witness :
    (runReads freshOobConn [⟨1, none, fun _ => {}⟩]).readPos ≤
      (runReads freshOobConn [⟨1, none, fun _ => {}⟩]).messagesLen ∧
    ((ReadPacketStep freshOobConn ⟨1, none, fun _ => {}⟩).issued = true ↔
      freshOobConn.messagesLen = freshOobConn.readPos) :=
  ⟨readPacket_cursor_invariant.2.1 [⟨1, none, fun _ => {}⟩]
      (fun r hr => by
        simp only [List.mem_singleton] at hr
        subst hr
        exact Nat.le_refl _),
   readPacket_cursor_invariant.2.2 freshOobConn ⟨1, none, fun _ => {}⟩⟩

end Quic

namespace Quic

/-- C7: a `ReadPacket` call that consumes a slot whose control-message
chain is malformed returns `InvalidControlMessage`, but the pipeline state
stays valid: the cursor has advanced past the bad slot, the batch length
and slot contents are untouched, the next call issues a receive exactly
when the batch is now exhausted, and otherwise proceeds normally to
consume the next slot. -/
theorem readPacket_malformed_cmsg_state_ok (c : OobConn) (r : BatchResult)
    (o4 o6 : SyncOnce) (hpos : c.readPos < c.messagesLen)
    (hbad : parseCmsgLoop (c.msgs c.readPos).oob {} c.once4 c.once6 =
      (.error .einval, o4, o6)) :
    (ReadPacketStep c r).res = .error .invalidCmsg ∧
    (ReadPacketStep c r).st.readPos = (c.readPos + 1) % 256 ∧
    (ReadPacketStep c r).st.messagesLen = c.messagesLen ∧
    (ReadPacketStep c r).st.msgs = c.msgs ∧
    (∀ rB : BatchResult, (ReadPacketStep (ReadPacketStep c r).st rB).issued = true ↔
      c.messagesLen = (c.readPos + 1) % 256) ∧
    ((c.readPos + 1) % 256 < c.messagesLen → ∀ rB : BatchResult,
      ReadPacketStep (ReadPacketStep c r).st rB = consume (ReadPacketStep c r).st false) := by
  have hne : ¬c.messagesLen = c.readPos := by omega
  rw [readPacketStep_noRefill hne, consume_err hbad]
  refine ⟨rfl, rfl, rfl, rfl, fun rB => readPacketStep_issued_iff _ rB, fun h2 rB => ?_⟩
  exact readPacketStep_noRefill (by simpa using ne_of_gt h2) rB

/-- Witness for C7: a one-slot batch whose slot carries a record declaring
length 13 in a 12-byte buffer. -/
theorem readPacket_malformed_cmsg_state_ok_witness :
    (ReadPacketStep
        { readPos := 0, messagesLen := 1,
          msgs := fun _ => ⟨3, [13, 0, 0, 0, 0, 0, 0, 0, 0, 0, 0, 0]⟩,
          once4 := {}, once6 := {} } ⟨0, none, fun _ => {}⟩).res =
      .error .invalidCmsg ∧
    (ReadPacketStep
        { readPos := 0, messagesLen := 1,
          msgs := fun _ => ⟨3, [13, 0, 0, 0, 0, 0, 0, 0, 0, 0, 0, 0]⟩,
          once4 := {}, once6 := {} } ⟨0, none, fun _ => {}⟩).st.readPos = (0 + 1) % 256 :=
  ⟨(readPacket_malformed_cmsg_state_ok
      { readPos := 0, messagesLen := 1,
        msgs := fun _ => ⟨3, [13, 0, 0, 0, 0, 0, 0, 0, 0, 0, 0, 0]⟩,
        once4 := {}, once6 := {} } ⟨0, none, fun _ => {}⟩ {} {} (by decide)
      (parseCmsgLoop_error
        (show ParseOneSocketControlMessage [13, 0, 0, 0, 0, 0, 0, 0, 0, 0, 0, 0] =
            Except.error CmsgErr.einval from rfl) (by decide) {} {} {})).1,
   (readPacket_malformed_cmsg_state_ok
      { readPos := 0, messagesLen := 1,
        msgs := fun _ => ⟨3, [13, 0, 0, 0, 0, 0, 0, 0, 0, 0, 0, 0]⟩,
        once4 := {}, once6 := {} } ⟨0, none, fun _ => {}⟩ {} {} (by decide)
      (parseCmsgLoop_error
        (show ParseOneSocketControlMessage [13, 0, 0, 0, 0, 0, 0, 0, 0, 0, 0, 0] =
            Except.error CmsgErr.einval from rfl) (by decide) {} {} {})).2.1⟩

/-- C9: a successfully parsed control-message record whose `(level, type)`
pair is none of the recognized ECN / packet-info pairs is skipped: the
loop body leaves the packet fields and both diagnostic gates unchanged,
and the loop continues on the remainder of the chain. -/
theorem cmsg_unknown_record_skipped (data : List Nat) (hdr : Cmsghdr)
    (body rem : List Nat) (p : PacketFields) (o4 o6 : SyncOnce)
    (hparse : ParseOneSocketControlMessage data = .ok (hdr, body, rem))
    (hip : ¬(hdr.Level = IPPROTO_IP ∧ (hdr.Typ = IP_TOS ∨ hdr.Typ = IP_PKTINFO)))
    (hip6 : ¬(hdr.Level = IPPROTO_IPV6 ∧
      (hdr.Typ = IPV6_RECVTCLASS ∨ hdr.Typ = IPV6_PKTINFO))) :
    applyCmsg hdr body p o4 o6 = (p, o4, o6) ∧
    parseCmsgLoop data p o4 o6 = parseCmsgLoop rem p o4 o6 := by
  have hlen := parseOne_ok_length hparse
  have hne : data.length ≠ 0 := by simp only [cmsgSize] at hlen; omega
  have happ : applyCmsg hdr body p o4 o6 = (p, o4, o6) := by
    simp only [applyCmsg]
    split_ifs <;> first | rfl | tauto
  refine ⟨happ, ?_⟩
  rw [parseCmsgLoop_ok hparse hne, happ]

/-- Witness for C9: a record with level 99, type 99. -/
theorem cmsg_unknown_record_skipped_witness :
    applyCmsg ⟨13, 99, 99⟩ [7] {} {} {} = ({}, {}, {}) ∧
    parseCmsgLoop [13, 0, 0, 0, 99, 0, 0, 0, 99, 0, 0, 0, 7, 0, 0, 0] {} {} {} =
      parseCmsgLoop [] {} {} {} :=
  cmsg_unknown_record_skipped _ ⟨13, 99, 99⟩ [7] [] {} {} {} rfl (by decide) (by decide)

end Quic

namespace Quic

lemma applyCmsg_pktinfo_badlen4 {hdr : Cmsghdr} {body : List Nat}
    (h1 : hdr.Level = IPPROTO_IP) (h2 : hdr.Typ = IP_PKTINFO) (h3 : body.length ≠ 8)
    (p : PacketFields) (o4 o6 : SyncOnce) :
    applyCmsg hdr body p o4 o6 = (p, o4.run, o6) := by
  simp [applyCmsg, h1, h2, parseIPv4PktInfo, h3, IPPROTO_IP, IPPROTO_IPV6, IP_TOS, IP_PKTINFO]

lemma applyCmsg_pktinfo_badlen6 {hdr : Cmsghdr} {body : List Nat}
    (h1 : hdr.Level = IPPROTO_IPV6) (h2 : hdr.Typ = IPV6_PKTINFO) (h3 : ¬body.length = 20)
    (p : PacketFields) (o4 o6 : SyncOnce) :
    applyCmsg hdr body p o4 o6 = (p, o4, o6.run) := by
  simp [applyCmsg, h1, h2, h3, IPPROTO_IP, IPPROTO_IPV6, IPV6_RECVTCLASS, IPV6_PKTINFO]

lemma syncOnce_run_pres {o : SyncOnce} (h1 : o.fired ≤ 1)
    (h2 : o.done = false → o.fired = 0) :
    o.run.fired ≤ 1 ∧ (o.run.done = false → o.run.fired = 0) := by
  unfold SyncOnce.run
  split_ifs with hd
  · exact ⟨h1, h2⟩
  · simp only [Bool.not_eq_true] at hd
    refine ⟨?_, fun hq => ?_⟩
    · show o.fired + 1 ≤ 1
      rw [h2 hd]
    · exact absurd hq (by simp)

lemma applyCmsg_once_cases (hdr : Cmsghdr) (body : List Nat) (p : PacketFields)
    (o4 o6 : SyncOnce) :
    ((applyCmsg hdr body p o4 o6).2.1 = o4 ∨ (applyCmsg hdr body p o4 o6).2.1 = o4.run) ∧
    ((applyCmsg hdr body p o4 o6).2.2 = o6 ∨ (applyCmsg hdr body p o4 o6).2.2 = o6.run) := by
  unfold applyCmsg
  rcases hpi : parseIPv4PktInfo body with _ | pr <;> split_ifs <;> simp [hpi]

lemma parseOne_ok_rem_length {b : List Nat} {hdr : Cmsghdr} {body rem : List Nat}
    (h : ParseOneSocketControlMessage b = .ok (hdr, body, rem)) (hb : b.length ≠ 0) :
    rem.length < b.length := by
  simp only [ParseOneSocketControlMessage, socketControlMessageHeaderAndData] at h
  split at h
  · exact absurd h (by simp)
  · rename_i hd dbuf heq
    split at heq
    · exact absurd heq (by simp)
    · rename_i hcond
      simp only [Except.ok.injEq, Prod.mk.injEq] at h heq
      obtain ⟨hh, -⟩ := heq
      obtain ⟨-, -, hrem⟩ := h
      subst hrem
      subst hh
      simp only [cmsgDataAlign, cmsgSize, not_or, not_lt] at hcond ⊢
      obtain ⟨h1L, h2L⟩ := hcond
      split
      · simp only [List.length_drop]
        omega
      · simpa using Nat.pos_of_ne_zero hb

lemma parseCmsgLoop_once_inv :
    ∀ (n : Nat) (data : List Nat) (p : PacketFields) (o4 o6 : SyncOnce),
      data.length ≤ n →
      o4.fired ≤ 1 → (o4.done = false → o4.fired = 0) →
      o6.fired ≤ 1 → (o6.done = false → o6.fired = 0) →
      ((parseCmsgLoop data p o4 o6).2.1.fired ≤ 1 ∧
        ((parseCmsgLoop data p o4 o6).2.1.done = false →
          (parseCmsgLoop data p o4 o6).2.1.fired = 0)) ∧
      ((parseCmsgLoop data p o4 o6).2.2.fired ≤ 1 ∧
        ((parseCmsgLoop data p o4 o6).2.2.done = false →
          (parseCmsgLoop data p o4 o6).2.2.fired = 0)) := by
  intro n
  induction n with
  | zero =>
      intro data p o4 o6 hlen h41 h42 h61 h62
      have hnil : data = [] := List.length_eq_zero.mp (Nat.le_zero.mp hlen)
      subst hnil
      rw [parseCmsgLoop_nil]
      exact ⟨⟨h41, h42⟩, ⟨h61, h62⟩⟩
  | succ m ih =>
      intro data p o4 o6 hlen h41 h42 h61 h62
      by_cases hd : data.length = 0
      · have hnil : data = [] := List.length_eq_zero.mp hd
        subst hnil
        rw [parseCmsgLoop_nil]
        exact ⟨⟨h41, h42⟩, ⟨h61, h62⟩⟩
      · rcases hp : ParseOneSocketControlMessage data with e | ⟨hdr, body, rem⟩
        · rw [parseCmsgLoop_error hp hd]
          exact ⟨⟨h41, h42⟩, ⟨h61, h62⟩⟩
        · rw [parseCmsgLoop_ok hp hd]
          have hrem := parseOne_ok_rem_length hp hd
          have hcases := applyCmsg_once_cases hdr body p o4 o6
          have h4' : (applyCmsg hdr body p o4 o6).2.1.fired ≤ 1 ∧
              ((applyCmsg hdr body p o4 o6).2.1.done = false →
                (applyCmsg hdr body p o4 o6).2.1.fired = 0) := by
            rcases hcases.1 with h | h <;> rw [h]
            · exact ⟨h41, h42⟩
            · exact syncOnce_run_pres h41 h42
          have h6' : (applyCmsg hdr body p o4 o6).2.2.fired ≤ 1 ∧
              ((applyCmsg hdr body p o4 o6).2.2.done = false →
                (applyCmsg hdr body p o4 o6).2.2.fired = 0) := by
            rcases hcases.2 with h | h <;> rw [h]
            · exact ⟨h61, h62⟩
            · exact syncOnce_run_pres h61 h62
          exact ih rem _ _ _ (by omega) h4'.1 h4'.2 h6'.1 h6'.2

lemma consume_once_inv {c : OobConn} {b : Bool}
    (h41 : c.once4.fired ≤ 1) (h42 : c.once4.done = false → c.once4.fired = 0)
    (h61 : c.once6.fired ≤ 1) (h62 : c.once6.done = false → c.once6.fired = 0) :
    ((consume c b).st.once4.fired ≤ 1 ∧
      ((consume c b).st.once4.done = false → (consume c b).st.once4.fired = 0)) ∧
    ((consume c b).st.once6.fired ≤ 1 ∧
      ((consume c b).st.once6.done = false → (consume c b).st.once6.fired = 0)) := by
  have hinv := parseCmsgLoop_once_inv (c.msgs c.readPos).oob.length
    (c.msgs c.readPos).oob {} c.once4 c.once6 (Nat.le_refl _) h41 h42 h61 h62
  rcases hp : parseCmsgLoop (c.msgs c.readPos).oob {} c.once4 c.once6 with ⟨pr, o4, o6⟩
  rw [hp] at hinv
  rcases pr with e | f
  · rw [consume_err hp]
    exact hinv
  · rw [consume_ok hp]
    exact hinv

lemma readPacketStep_once_inv {c : OobConn} {r : BatchResult}
    (h41 : c.once4.fired ≤ 1) (h42 : c.once4.done = false → c.once4.fired = 0)
    (h61 : c.once6.fired ≤ 1) (h62 : c.once6.done = false → c.once6.fired = 0) :
    ((ReadPacketStep c r).st.once4.fired ≤ 1 ∧
      ((ReadPacketStep c r).st.once4.done = false →
        (ReadPacketStep c r).st.once4.fired = 0)) ∧
    ((ReadPacketStep c r).st.once6.fired ≤ 1 ∧
      ((ReadPacketStep c r).st.once6.done = false →
        (ReadPacketStep c r).st.once6.fired = 0)) := by
  by_cases h : c.messagesLen = c.readPos
  · by_cases hf : r.n = 0 ∨ r.err ≠ none
    · rw [readPacketStep_refill_fail h hf]
      exact ⟨⟨h41, h42⟩, ⟨h61, h62⟩⟩
    · rw [readPacketStep_refill_ok h hf]
      exact consume_once_inv h41 h42 h61 h62
  · rw [readPacketStep_noRefill h]
    exact consume_once_inv h41 h42 h61 h62

lemma runReads_once_inv (rs : List BatchResult) :
    ∀ c : OobConn,
      c.once4.fired ≤ 1 → (c.once4.done = false → c.once4.fired = 0) →
      c.once6.fired ≤ 1 → (c.once6.done = false → c.once6.fired = 0) →
      (runReads c rs).once4.fired ≤ 1 ∧ (runReads c rs).once6.fired ≤ 1 := by
  induction rs with
  | nil => exact fun c h41 h42 h61 h62 => ⟨h41, h61⟩
  | cons r rest ih =>
      intro c h41 h42 h61 h62
      have hs := @readPacketStep_once_inv c r h41 h42 h61 h62
      exact ih _ hs.1.1 hs.1.2 hs.2.1 hs.2.2

end Quic

namespace Quic

/-- C8: a packet-info record whose payload length is not the expected size
(8 bytes for IPv4, 20 for IPv6) is not a parse failure: the loop body
leaves `packetInfo` unchanged and only trips the per-family `sync.Once`
gate; a `ReadPacket` call whose slot carries exactly such a record
succeeds with `packetInfo` unset; and over any sequence of calls from the
fresh connection each family's diagnostic fires at most once. -/
theorem readPacket_pktinfo_len_mismatch_nonfatal :
    (∀ (hdr : Cmsghdr) (body : List Nat) (p : PacketFields) (o4 o6 : SyncOnce),
      hdr.Level = IPPROTO_IP → hdr.Typ = IP_PKTINFO → body.length ≠ 8 →
      applyCmsg hdr body p o4 o6 = (p, o4.run, o6)) ∧
    (∀ (hdr : Cmsghdr) (body : List Nat) (p : PacketFields) (o4 o6 : SyncOnce),
      hdr.Level = IPPROTO_IPV6 → hdr.Typ = IPV6_PKTINFO → ¬body.length = 20 →
      applyCmsg hdr body p o4 o6 = (p, o4, o6.run)) ∧
    (∀ (c : OobConn) (r : BatchResult) (hdr : Cmsghdr) (body : List Nat),
      c.readPos < c.messagesLen →
      ParseOneSocketControlMessage (c.msgs c.readPos).oob = .ok (hdr, body, []) →
      hdr.Level = IPPROTO_IP → hdr.Typ = IP_PKTINFO → body.length ≠ 8 →
      (ReadPacketStep c r).res = .ok ⟨(c.msgs c.readPos).addr, .Unsupported, {}⟩ ∧
      (ReadPacketStep c r).st.once4 = c.once4.run) ∧
    (∀ rs : List BatchResult,
      (runReads freshOobConn rs).once4.fired ≤ 1 ∧
      (runReads freshOobConn rs).once6.fired ≤ 1) := by
  refine ⟨fun hdr body p o4 o6 h1 h2 h3 => applyCmsg_pktinfo_badlen4 h1 h2 h3 p o4 o6,
          fun hdr body p o4 o6 h1 h2 h3 => applyCmsg_pktinfo_badlen6 h1 h2 h3 p o4 o6,
          fun c r hdr body hpos hparse h1 h2 h3 => ?_,
          fun rs => runReads_once_inv rs freshOobConn (by decide) (fun _ => rfl)
            (by decide) (fun _ => rfl)⟩
  have hne : ¬c.messagesLen = c.readPos := by omega
  have hlen := parseOne_ok_length hparse
  have hd : (c.msgs c.readPos).oob.length ≠ 0 := by
    simp only [cmsgSize] at hlen
    omega
  have hl : parseCmsgLoop (c.msgs c.readPos).oob {} c.once4 c.once6 =
      (.ok {}, c.once4.run, c.once6) := by
    rw [parseCmsgLoop_ok hparse hd, applyCmsg_pktinfo_badlen4 h1 h2 h3, parseCmsgLoop_nil]
  constructor
  · exact readPacketStep_consume_res hne hl r
  · rw [readPacketStep_noRefill hne, consume_ok hl]

/-- Witness for C8: the spec's concrete scenario of a packet-info record
with payload length 7. -/
theorem readPacket_pktinfo_len_mismatch_nonfatal_witness :
    ((ReadPacketStep
        { readPos := 0, messagesLen := 1,
          msgs := fun _ =>
            ⟨9, [19, 0, 0, 0, 0, 0, 0, 0, 19, 0, 0, 0, 1, 2, 3, 4, 5, 6, 7, 0]⟩,
          once4 := {}, once6 := {} } ⟨0, none, fun _ => {}⟩).res =
      .ok ⟨9, .Unsupported, {}⟩ ∧
     (ReadPacketStep
        { readPos := 0, messagesLen := 1,
          msgs := fun _ =>
            ⟨9, [19, 0, 0, 0, 0, 0, 0, 0, 19, 0, 0, 0, 1, 2, 3, 4, 5, 6, 7, 0]⟩,
          once4 := {}, once6 := {} } ⟨0, none, fun _ => {}⟩).st.once4 =
      SyncOnce.run {}) ∧
    ((runReads freshOobConn []).once4.fired ≤ 1 ∧
     (runReads freshOobConn []).once6.fired ≤ 1) :=
  ⟨readPacket_pktinfo_len_mismatch_nonfatal.2.2.1
      { readPos := 0, messagesLen := 1,
        msgs := fun _ =>
          ⟨9, [19, 0, 0, 0, 0, 0, 0, 0, 19, 0, 0, 0, 1, 2, 3, 4, 5, 6, 7, 0]⟩,
        once4 := {}, once6 := {} } ⟨0, none, fun _ => {}⟩ ⟨19, 0, 19⟩ [1, 2, 3, 4, 5, 6, 7]
      (by decide)
      (show ParseOneSocketControlMessage
          [19, 0, 0, 0, 0, 0, 0, 0, 19, 0, 0, 0, 1, 2, 3, 4, 5, 6, 7, 0] =
        Except.ok (⟨19, 0, 19⟩, [1, 2, 3, 4, 5, 6, 7], []) from rfl)
      rfl rfl (by decide),
   readPacket_pktinfo_len_mismatch_nonfatal.2.2.2 []⟩

end Quic

namespace Quic

lemma cmsgDataAlign_cmsgSize : cmsgDataAlign cmsgSize = 12 := rfl

/-- C3: over the raw-memory view of the parser (the header loads are
unchecked `unsafe.Pointer` reads), a buffer of length `n ≥ 1` whose
declared header length is smaller than the 12-byte header size or larger
than `n` parses to the `EINVAL` (`InvalidControlMessage`) error; and the
entire parse result depends only on the bytes inside the buffer's bounds:
two memories agreeing on `[0, n)` parse identically. -/
theorem parseOne_malformed_len_and_inbounds (mem memB : Nat → Nat) (n : Nat)
    (hn : 1 ≤ n) :
    (readU32LEMem mem 0 < cmsgSize ∨ readU32LEMem mem 0 > n →
      ParseOneSocketControlMessageMem mem n = .error .einval) ∧
    ((∀ i, i < n → mem i = memB i) →
      ParseOneSocketControlMessageMem mem n = ParseOneSocketControlMessageMem memB n) := by
  constructor
  · intro hcond
    simp only [ParseOneSocketControlMessageMem, socketControlMessageHeaderAndDataMem]
    rw [if_pos hcond]
  · intro hag
    by_cases hsmall : n < cmsgSize
    · have hcondA : readU32LEMem mem 0 < cmsgSize ∨ readU32LEMem mem 0 > n := by
        rcases Nat.lt_or_ge (readU32LEMem mem 0) cmsgSize with h | h
        · exact Or.inl h
        · exact Or.inr (by omega)
      have hcondB : readU32LEMem memB 0 < cmsgSize ∨ readU32LEMem memB 0 > n := by
        rcases Nat.lt_or_ge (readU32LEMem memB 0) cmsgSize with h | h
        · exact Or.inl h
        · exact Or.inr (by omega)
      simp only [ParseOneSocketControlMessageMem, socketControlMessageHeaderAndDataMem]
      rw [if_pos hcondA, if_pos hcondB]
    · push_neg at hsmall
      simp only [cmsgSize] at hsmall
      have h0 : readU32LEMem mem 0 = readU32LEMem memB 0 := by
        simp only [readU32LEMem]
        rw [hag 0 (by omega), hag 1 (by omega), hag 2 (by omega), hag 3 (by omega)]
      have h4 : readU32LEMem mem 4 = readU32LEMem memB 4 := by
        simp only [readU32LEMem]
        rw [hag 4 (by omega), hag 5 (by omega), hag 6 (by omega), hag 7 (by omega)]
      have h8 : readU32LEMem mem 8 = readU32LEMem memB 8 := by
        simp only [readU32LEMem]
        rw [hag 8 (by omega), hag 9 (by omega), hag 10 (by omega), hag 11 (by omega)]
      simp only [ParseOneSocketControlMessageMem, socketControlMessageHeaderAndDataMem]
      rw [h0, h4, h8]
      split_ifs with hc
      · rfl
      · push_neg at hc
        have hdata :
            (List.range' (cmsgDataAlign cmsgSize)
                (readU32LEMem memB 0 - cmsgDataAlign cmsgSize)).map
              (fun j => mem j % 256) =
            (List.range' (cmsgDataAlign cmsgSize)
                (readU32LEMem memB 0 - cmsgDataAlign cmsgSize)).map
              (fun j => memB j % 256) := by
          refine List.map_congr_left (fun j hj => ?_)
          rw [List.mem_range'_1, cmsgDataAlign_cmsgSize] at hj
          have hjn : j < n := by
            have hle : readU32LEMem memB 0 ≤ n := hc.2
            omega
          rw [hag j hjn]
        by_cases hrem : cmsgDataAlign (readU32LEMem memB 0) < n
        · have hremEq :
              (List.range' (cmsgDataAlign (readU32LEMem memB 0))
                  (n - cmsgDataAlign (readU32LEMem memB 0))).map (fun j => mem j % 256) =
              (List.range' (cmsgDataAlign (readU32LEMem memB 0))
                  (n - cmsgDataAlign (readU32LEMem memB 0))).map (fun j => memB j % 256) := by
            refine List.map_congr_left (fun j hj => ?_)
            rw [List.mem_range'_1] at hj
            have hjn : j < n := by omega
            rw [hag j hjn]
          simp only [if_pos hrem, hdata, hremEq]
        · simp only [if_neg hrem, hdata]

/-- Witness for C3: the all-zero memory of length 2 (declared length 0)
parses to `EINVAL`, and it parses the same as any memory agreeing on its
two bytes. -/
theorem parseOne_malformed_len_and_inbounds_witness :
    ParseOneSocketControlMessageMem (fun _ => 0) 2 = .error .einval ∧
    ParseOneSocketControlMessageMem (fun _ => 0) 2 =
      ParseOneSocketControlMessageMem (fun i => if i < 2 then 0 else 255) 2 :=
  ⟨(parseOne_malformed_len_and_inbounds (fun _ => 0) (fun _ => 0) 2 (by norm_num)).1
      (Or.inl (by norm_num [readU32LEMem, cmsgSize])),
   (parseOne_malformed_len_and_inbounds (fun _ => 0) (fun i => if i < 2 then 0 else 255) 2
      (by norm_num)).2
      (fun i hi => by simp [hi])⟩

end Quic
